import Mathlib

/-!
Verification of the news aggregation pipeline and in-memory store of the
news-aggregator API repository. The definitions below are a shallow
embedding of `src/services/NewsService.js`, `src/models/Article.js`,
`src/models/User.js` and the in-memory `DataStore`. JS numbers standing for
millisecond timestamps are modelled as `Int`; the randomly generated ids
(`generateId`) and the `createdAt` stamp of an article are not part of the
article value, since no verified property mentions them; external HTTP
traffic is abstracted by an oracle from category (or one response per
provider for search) to a request outcome.
-/

/-- Canonical article record, from the constructor in `src/models/Article.js`
(the randomly generated `id` and the `createdAt` stamp are omitted: no
verified property mentions them). -/
structure Article where
  title : String
  description : String
  url : String
  urlToImage : String
  publishedAt : Int
  source : String
  category : String
  language : String
  content : String
  author : String
  deriving DecidableEq

/-- Raw provider payload item: the union of the fields the two mappers in
`src/models/Article.js` read (NewsAPI reads `urlToImage` and `author`, GNews
reads `image` and `language`). A missing/falsy string field is the empty
string. -/
structure RawArticle where
  title : String
  description : String
  url : String
  urlToImage : String
  image : String
  publishedAt : Int
  sourceName : String
  content : String
  author : String
  language : String
  deriving DecidableEq

/-- `Article.fromNewsAPI` (src/models/Article.js lines 21-34): the
`article.source?.name || 'Unknown'` fallback maps an empty source name to
"Unknown"; language is fixed to "en". -/
def Article.fromNewsAPI (a : RawArticle) (category : String) : Article :=
  { title := a.title
    description := a.description
    url := a.url
    urlToImage := a.urlToImage
    publishedAt := a.publishedAt
    source := if a.sourceName = "" then "Unknown" else a.sourceName
    category := category
    language := "en"
    content := a.content
    author := a.author }

/-- `Article.fromGNews` (src/models/Article.js lines 36-49): the image comes
from the `image` field, the language from `article.language || 'en'`, and the
author is always empty. -/
def Article.fromGNews (a : RawArticle) (category : String) : Article :=
  { title := a.title
    description := a.description
    url := a.url
    urlToImage := a.image
    publishedAt := a.publishedAt
    source := if a.sourceName = "" then "Unknown" else a.sourceName
    category := category
    language := if a.language = "" then "en" else a.language
    content := a.content
    author := "" }

/-- Modelled from the spec: the cache layer (spec section 4.2) is the
node-cache dependency, whose source is not part of this repository. An entry
holds a key, a value and an absolute expiry instant (set time plus TTL); an
entry is visible to `get` until its TTL elapses and behaves as absent
afterwards, whether or not it is physically removed. -/
abbrev Cache := List (String × List Article × Int)

/-- Cache TTL in milliseconds: `config.cache.ttl` defaults to 3600 seconds
in `src/config/config.js`. -/
def cacheTTLms : Int := 3600000

/-- Modelled from the spec: node-cache `get`; the most recent entry for a
key shadows older ones, and an entry whose TTL has elapsed is absent. -/
def cacheGet (c : Cache) (k : String) (now : Int) : Option (List Article) :=
  match c.find? (fun e => e.1 == k) with
  | some e => if now < e.2.2 then some e.2.1 else none
  | none => none

/-- Modelled from the spec: node-cache `set` with the default TTL; the new
entry shadows any older entry for the same key (overwrite). -/
def cacheSet (c : Cache) (k : String) (v : List Article) (now : Int) : Cache :=
  (k, v, now + cacheTTLms) :: c

/-- Outcome of one external HTTP request, as the code distinguishes them:
the axios promise rejects (timeout, non-2xx: the catch branch runs), the
response body lacks a `data.articles` array (the if-guard fails), or it
carries a list of raw items. -/
inductive FetchOutcome where
  | failure
  | noArticles
  | success (items : List RawArticle)
  deriving DecidableEq

namespace NewsService

/-- Cache key of a NewsAPI category fetch (template literal in
`fetchFromNewsAPI`). -/
def newsapiKey (category language : String) (pageSize : Nat) : String :=
  "newsapi_" ++ category ++ "_" ++ language ++ "_" ++ toString pageSize

/-- Cache key of a GNews category fetch (template literal in
`fetchFromGNews`). -/
def gnewsCacheKey (category language : String) (pageSize : Nat) : String :=
  "gnews_" ++ category ++ "_" ++ language ++ "_" ++ toString pageSize

/-- Cache key of a search (template literal in `searchNews`). -/
def searchKey (keyword language : String) (pageSize : Nat) : String :=
  "search_" ++ keyword ++ "_" ++ language ++ "_" ++ toString pageSize

/-- Truthiness filter `article.title && article.url` applied to raw items
before mapping. -/
def rawOk (a : RawArticle) : Bool :=
  a.title != "" && a.url != ""

/-- Category loop of `fetchFromNewsAPI` (lines 40-70): per category, a cache
hit appends the cached list; on a miss one request is issued, the filtered
items are mapped and cached; a response without `data.articles` skips the
category; a thrown request error is caught by the single try surrounding the
whole loop, which then returns the empty list (cache entries already written
are kept). -/
def newsapiLoop (language : String) (pageSize : Nat)
    (net : String → FetchOutcome) (now : Int) :
    List String → Cache → List Article → List Article × Cache
  | [], cache, acc => (acc, cache)
  | cat :: rest, cache, acc =>
    match cacheGet cache (newsapiKey cat language pageSize) now with
    | some cached => newsapiLoop language pageSize net now rest cache (acc ++ cached)
    | none =>
      match net cat with
      | FetchOutcome.failure => ([], cache)
      | FetchOutcome.noArticles => newsapiLoop language pageSize net now rest cache acc
      | FetchOutcome.success items =>
        let formatted := (items.filter rawOk).map (fun a => Article.fromNewsAPI a cat)
        newsapiLoop language pageSize net now rest
          (cacheSet cache (newsapiKey cat language pageSize) formatted now)
          (acc ++ formatted)

/-- `fetchFromNewsAPI` (src/services/NewsService.js lines 31-77): returns
the empty list when the API key is not configured, otherwise runs the
category loop. Capping the page size to 100 only changes the request
parameters, which the network oracle already abstracts. -/
def fetchFromNewsAPI (keyConfigured : Bool) (categories : List String)
    (language : String) (pageSize : Nat) (cache : Cache)
    (net : String → FetchOutcome) (now : Int) : List Article × Cache :=
  if keyConfigured then newsapiLoop language pageSize net now categories cache []
  else ([], cache)

/-- Category loop of `fetchFromGNews` (lines 95-125), identical in structure
to the NewsAPI loop but with the gnews cache key and the GNews mapper. -/
def gnewsLoop (language : String) (pageSize : Nat)
    (net : String → FetchOutcome) (now : Int) :
    List String → Cache → List Article → List Article × Cache
  | [], cache, acc => (acc, cache)
  | cat :: rest, cache, acc =>
    match cacheGet cache (gnewsCacheKey cat language pageSize) now with
    | some cached => gnewsLoop language pageSize net now rest cache (acc ++ cached)
    | none =>
      match net cat with
      | FetchOutcome.failure => ([], cache)
      | FetchOutcome.noArticles => gnewsLoop language pageSize net now rest cache acc
      | FetchOutcome.success items =>
        let formatted := (items.filter rawOk).map (fun a => Article.fromGNews a cat)
        gnewsLoop language pageSize net now rest
          (cacheSet cache (gnewsCacheKey cat language pageSize) formatted now)
          (acc ++ formatted)

/-- `fetchFromGNews` (src/services/NewsService.js lines 86-132). -/
def fetchFromGNews (keyConfigured : Bool) (categories : List String)
    (language : String) (pageSize : Nat) (cache : Cache)
    (net : String → FetchOutcome) (now : Int) : List Article × Cache :=
  if keyConfigured then gnewsLoop language pageSize net now categories cache []
  else ([], cache)

/-- `searchNews` (src/services/NewsService.js lines 141-212). Besides the
article list and the updated cache, the model counts the external requests
issued, to state the caching claims. On a cache hit the stored array is
returned at once (a JS array is truthy even when empty). NewsAPI is queried
when configured; GNews only when configured and NewsAPI under-supplied. Each
provider has its own try/catch, so a failed request contributes zero
articles without aborting the other provider. The produced list, empty or
not, is stored in the cache before returning. No deduplication is applied on
this path. -/
def searchNews (newsKeyConfigured gnewsKeyConfigured : Bool)
    (keyword language : String) (pageSize : Nat)
    (newsResp gnewsResp : FetchOutcome) (cache : Cache) (now : Int) :
    List Article × Cache × Nat :=
  match cacheGet cache (searchKey keyword language pageSize) now with
  | some cached => (cached, cache, 0)
  | none =>
    let fromA :=
      if newsKeyConfigured then
        match newsResp with
        | FetchOutcome.success items =>
          ((items.filter rawOk).map (fun a => Article.fromNewsAPI a "search"), 1)
        | _ => (([] : List Article), 1)
      else (([] : List Article), 0)
    let fromB :=
      if gnewsKeyConfigured = true ∧ fromA.1.length < pageSize then
        match gnewsResp with
        | FetchOutcome.success items =>
          ((items.filter rawOk).map (fun a => Article.fromGNews a "search"), 1)
        | _ => (([] : List Article), 1)
      else (([] : List Article), 0)
    let articles := fromA.1 ++ fromB.1
    (articles, cacheSet cache (searchKey keyword language pageSize) articles now,
      fromA.2 + fromB.2)

/-- Loop of `removeDuplicates` (lines 260-269): the JS filter callback
closes over a `seen` set of urls; every url, the empty string included,
enters the set. -/
def removeDuplicatesAux : List Article → List String → List Article
  | [], _ => []
  | a :: rest, seen =>
    if a.url ∈ seen then removeDuplicatesAux rest seen
    else a :: removeDuplicatesAux rest (a.url :: seen)

/-- `removeDuplicates`: keep the first occurrence of each url. -/
def removeDuplicates (articles : List Article) : List Article :=
  removeDuplicatesAux articles []

/-- Order of the sort in `getPersonalizedNews` line 244: `a` may come before
`b` exactly when the comparator value `b.publishedAt - a.publishedAt` is
nonpositive, i.e. newest first. -/
def publishedGE (a b : Article) : Prop :=
  b.publishedAt ≤ a.publishedAt

instance : DecidableRel publishedGE :=
  fun a b => inferInstanceAs (Decidable (b.publishedAt ≤ a.publishedAt))

instance : IsTotal Article publishedGE :=
  ⟨fun a b => le_total b.publishedAt a.publishedAt⟩

instance : IsTrans Article publishedGE :=
  ⟨fun _ _ _ h1 h2 => le_trans h2 h1⟩

/-- The five fixed raw sample articles of `getMockArticles` (lines 296-347),
with publishedAt offsets in milliseconds from the current time. -/
def mockBaseArticles (now : Int) : List RawArticle :=
  [ { title := "Breaking: Technology Advances in 2024"
      description := "Latest technological innovations are reshaping the industry with AI and machine learning"
      url := "https://example.com/tech-news-1"
      urlToImage := "https://via.placeholder.com/400x200/0066CC/FFFFFF?text=Tech+News"
      image := ""
      publishedAt := now
      sourceName := "Tech Daily"
      content := "Artificial intelligence and machine learning continue to transform industries..."
      author := "John Doe"
      language := "" },
    { title := "Global Business Trends Show Positive Growth"
      description := "Economic indicators show positive growth across multiple sectors worldwide"
      url := "https://example.com/business-news-1"
      urlToImage := "https://via.placeholder.com/400x200/00AA00/FFFFFF?text=Business+News"
      image := ""
      publishedAt := now - 3600000
      sourceName := "Business Weekly"
      content := "Markets are showing resilience as global trade continues to expand..."
      author := "Jane Smith"
      language := "" },
    { title := "Sports Championship Finals Draw Record Viewers"
      description := "This year\x27s championship has broken all previous viewership records"
      url := "https://example.com/sports-news-1"
      urlToImage := "https://via.placeholder.com/400x200/FF6600/FFFFFF?text=Sports+News"
      image := ""
      publishedAt := now - 7200000
      sourceName := "Sports Central"
      content := "The championship finals have captivated audiences worldwide..."
      author := "Mike Johnson"
      language := "" },
    { title := "Health Research Breakthrough in Disease Treatment"
      description := "Scientists announce major breakthrough in treatment of chronic diseases"
      url := "https://example.com/health-news-1"
      urlToImage := "https://via.placeholder.com/400x200/CC0066/FFFFFF?text=Health+News"
      image := ""
      publishedAt := now - 10800000
      sourceName := "Medical Journal"
      content := "Researchers have made significant progress in understanding..."
      author := "Dr. Sarah Wilson"
      language := "" },
    { title := "Entertainment Industry Embraces New Digital Platforms"
      description := "Streaming services and digital content creation reach new heights"
      url := "https://example.com/entertainment-news-1"
      urlToImage := "https://via.placeholder.com/400x200/9933CC/FFFFFF?text=Entertainment"
      image := ""
      publishedAt := now - 14400000
      sourceName := "Entertainment Today"
      content := "The entertainment landscape continues to evolve with digital innovation..."
      author := "Lisa Chen"
      language := "" } ]

/-- `getMockArticles` (lines 295-355): all five articles when the category
list contains "general", otherwise the first three; each mapped through
`Article.fromNewsAPI` with the first requested category (`categories[0] ||
'general'`: the fallback also fires on an empty-string head, which is falsy
in JS). -/
def getMockArticles (categories : List String) (now : Int) : List Article :=
  let relevantArticles :=
    if "general" ∈ categories then mockBaseArticles now
    else (mockBaseArticles now).take 3
  let cat0 :=
    match categories.head? with
    | some c => if c = "" then "general" else c
    | none => "general"
  relevantArticles.map (fun a => Article.fromNewsAPI a cat0)

/-- Articles gathered by `getPersonalizedNews` before dedup, sort and limit:
both provider fetches (each asked for ceil(limit/2)), NewsAPI results first,
and the mock substitute when the concatenation is empty. The two fetches run
under `Promise.all` against the shared cache; their key spaces (`newsapi_`
versus `gnews_` prefixes) are disjoint, so threading the cache through A
then B observes the same values as the concurrent interleaving. -/
def personalizedPool (newsKeyConfigured gnewsKeyConfigured : Bool)
    (preferences : List String) (language : String) (limit : Nat)
    (newsNet gnewsNet : String → FetchOutcome) (cache : Cache) (now : Int) :
    List Article × Cache :=
  let resA := fetchFromNewsAPI newsKeyConfigured preferences language
    ((limit + 1) / 2) cache newsNet now
  let resB := fetchFromGNews gnewsKeyConfigured preferences language
    ((limit + 1) / 2) resA.2 gnewsNet now
  let allArticles := resA.1 ++ resB.1
  (if allArticles.isEmpty then getMockArticles preferences now else allArticles,
    resB.2)

/-- `getPersonalizedNews` (src/services/NewsService.js lines 221-253):
gather the pool, remove url duplicates, sort newest first (the JS sort is
stable, and under the total comparator the stable sorted permutation is
exactly what insertion sort computes), truncate to `limit`. The catch branch
of the JS function is unreachable in the model: every provider failure is
already absorbed inside the fetches. -/
def getPersonalizedNews (newsKeyConfigured gnewsKeyConfigured : Bool)
    (preferences : List String) (language : String) (limit : Nat)
    (newsNet gnewsNet : String → FetchOutcome) (cache : Cache) (now : Int) :
    List Article × Cache :=
  let pool := personalizedPool newsKeyConfigured gnewsKeyConfigured preferences
    language limit newsNet gnewsNet cache now
  ((List.insertionSort publishedGE (removeDuplicates pool.1)).take limit, pool.2)

end NewsService

/-- User record from `src/models/User.js`; the JS `Set`s of read and
favorite article ids are modelled as duplicate-free lists in insertion
order, timestamps as `Int`, and the randomly generated id as a plain field
fixed at construction. -/
structure User where
  id : String
  name : String
  email : String
  password : String
  preferences : List String
  readArticles : List String
  favoriteArticles : List String
  createdAt : Int
  updatedAt : Int
  deriving DecidableEq

/-- JS `Set.prototype.add`: no change when the element is present, append
otherwise. -/
def setAdd (s : List String) (x : String) : List String :=
  if x ∈ s then s else s ++ [x]

/-- JS `Set.prototype.delete`: remove the element when present (the set
holds no duplicates, so erasing the one occurrence suffices). -/
def setDelete (s : List String) (x : String) : List String :=
  s.erase x

/-- `User.markAsRead` (src/models/User.js lines 23-26). -/
def User.markAsRead (u : User) (articleId : String) (now : Int) : User :=
  { u with readArticles := setAdd u.readArticles articleId, updatedAt := now }

/-- `User.markAsFavorite` (src/models/User.js lines 28-31). -/
def User.markAsFavorite (u : User) (articleId : String) (now : Int) : User :=
  { u with favoriteArticles := setAdd u.favoriteArticles articleId, updatedAt := now }

/-- `User.removeFavorite` (src/models/User.js lines 33-36). -/
def User.removeFavorite (u : User) (articleId : String) (now : Int) : User :=
  { u with favoriteArticles := setDelete u.favoriteArticles articleId, updatedAt := now }

/-- The in-memory `DataStore`: users keyed by email and articles keyed by
article id, both JS `Map`s modelled as association lists in insertion
order. -/
structure DataStore where
  users : List (String × User)
  articles : List (String × Article)
  deriving DecidableEq

/-- Linear scan of `users.values()` in insertion order, as `getUserById`
does. -/
def findUserById (users : List (String × User)) (userId : String) : Option User :=
  (users.find? (fun e => e.2.id == userId)).map (fun e => e.2)

namespace DataStore

/-- `getUserById` (DataStore): first user whose id matches, else null. -/
def getUserById (s : DataStore) (userId : String) : Option User :=
  findUserById s.users userId

/-- `getArticle` (DataStore): `Map.get` on the article id. -/
def getArticle (s : DataStore) (articleId : String) : Option Article :=
  (s.articles.find? (fun e => e.1 == articleId)).map (fun e => e.2)

/-- Replace the first stored user whose id matches by its image under `f`:
the object `getUserById` returned is the one the JS methods mutate in
place. -/
def updateFirstUserById (users : List (String × User)) (userId : String)
    (f : User → User) : List (String × User) :=
  match users with
  | [] => []
  | e :: rest =>
    if e.2.id == userId then (e.1, f e.2) :: rest
    else e :: updateFirstUserById rest userId f

/-- `markArticleAsRead` (DataStore lines 100-107): true and the found user
mutated, or false and the store untouched. -/
def markArticleAsRead (s : DataStore) (userId articleId : String) (now : Int) :
    Bool × DataStore :=
  match getUserById s userId with
  | some _ =>
    (true, { s with users := (updateFirstUserById s.users userId
      (fun u => u.markAsRead articleId now)) })
  | none => (false, s)

/-- `markArticleAsFavorite` (DataStore lines 109-116). -/
def markArticleAsFavorite (s : DataStore) (userId articleId : String) (now : Int) :
    Bool × DataStore :=
  match getUserById s userId with
  | some _ =>
    (true, { s with users := (updateFirstUserById s.users userId
      (fun u => u.markAsFavorite articleId now)) })
  | none => (false, s)

/-- `removeFavoriteArticle` (DataStore lines 118-125). -/
def removeFavoriteArticle (s : DataStore) (userId articleId : String) (now : Int) :
    Bool × DataStore :=
  match getUserById s userId with
  | some _ =>
    (true, { s with users := (updateFirstUserById s.users userId
      (fun u => u.removeFavorite articleId now)) })
  | none => (false, s)

/-- `getUserReadArticles` (DataStore lines 86-91): empty for a missing user,
otherwise `Array.from(set).map(getArticle).filter(Boolean)`, which keeps
exactly the read ids that resolve to a stored article. -/
def getUserReadArticles (s : DataStore) (userId : String) : List Article :=
  match getUserById s userId with
  | none => []
  | some u => u.readArticles.filterMap (fun articleId => getArticle s articleId)

/-- `getUserFavoriteArticles` (DataStore lines 93-98). -/
def getUserFavoriteArticles (s : DataStore) (userId : String) : List Article :=
  match getUserById s userId with
  | none => []
  | some u => u.favoriteArticles.filterMap (fun articleId => getArticle s articleId)

end DataStore

/-- An occurrence of `x` in `l` before which no article carries the same
url. -/
def IsFirstOccurrence (l : List Article) (x : Article) : Prop :=
  ∃ pre post, l = pre ++ x :: post ∧ ∀ y ∈ pre, y.url ≠ x.url

/-- Concrete article used in instantiations. -/
def exArticle (t u : String) (p : Int) : Article :=
  { title := t, description := "", url := u, urlToImage := "",
    publishedAt := p, source := "S", category := "general",
    language := "en", content := "", author := "" }

/-- Concrete raw payload item used in instantiations. -/
def exRaw (t u : String) (p : Int) : RawArticle :=
  { title := t, description := "", url := u, urlToImage := "", image := "",
    publishedAt := p, sourceName := "S", content := "", author := "",
    language := "" }

/-- Concrete user: has read ids "a1" and "amissing" (the latter resolving to
no stored article) and favorite id "a2". -/
def exUser : User :=
  { id := "u1", name := "N", email := "n@example.com", password := "h",
    preferences := [], readArticles := ["a1", "amissing"],
    favoriteArticles := ["a2"], createdAt := 0, updatedAt := 0 }

/-- Concrete store holding `exUser` and two articles. -/
def exStore : DataStore :=
  { users := [("n@example.com", exUser)],
    articles := [("a1", exArticle "T1" "https://e.example/1" 5),
                 ("a2", exArticle "T2" "https://e.example/2" 3)] }

/-- Article with an empty url (title "A"). -/
def emptyUrlA : Article := exArticle "A" "" 0

/-- Article with an empty url (title "B"). -/
def emptyUrlB : Article := exArticle "B" "" 0

/-- Raw item returned by the successful category in the C2 scenario. -/
def exRawT : RawArticle := exRaw "T" "https://t.example/1" 0

/-- Network oracle for the C2 scenario: the technology request succeeds with
one item, every other request fails. -/
def exNet : String → FetchOutcome :=
  fun c => if c = "technology" then FetchOutcome.success [exRawT]
           else FetchOutcome.failure

/-- Two raw items carrying the same url, as returned by the two providers in
the C1 scenario. -/
def exRawX1 : RawArticle := exRaw "A1" "https://x.example/a" 10

/-- Second raw item with the same url as `exRawX1`. -/
def exRawX2 : RawArticle := exRaw "A2" "https://x.example/a" 20

namespace NewsService

lemma mem_removeDuplicatesAux_first :
    ∀ (l : List Article) (seen : List String) (x : Article),
      x ∈ removeDuplicatesAux l seen →
      x.url ∉ seen ∧ IsFirstOccurrence l x := by
  intro l
  induction l with
  | nil => intro seen x hx; simp [removeDuplicatesAux] at hx
  | cons a rest ih =>
    intro seen x hx
    by_cases hm : a.url ∈ seen
    · rw [removeDuplicatesAux, if_pos hm] at hx
      obtain ⟨hns, pre, post, heq, hpre⟩ := ih seen x hx
      refine ⟨hns, a :: pre, post, by rw [heq]; rfl, ?_⟩
      intro y hy
      rcases List.mem_cons.mp hy with hya | hyp
      · subst hya
        intro hcontra
        exact hns (hcontra ▸ hm)
      · exact hpre y hyp
    · rw [removeDuplicatesAux, if_neg hm] at hx
      rcases List.mem_cons.mp hx with hxa | hxt
      · subst hxa
        exact ⟨hm, [], rest, rfl, by simp⟩
      · obtain ⟨hns, pre, post, heq, hpre⟩ := ih (a.url :: seen) x hxt
        have hne : x.url ≠ a.url := fun hc => hns (by rw [hc]; exact List.mem_cons_self _ _)
        have hnseen : x.url ∉ seen := fun hc => hns (List.mem_cons_of_mem _ hc)
        refine ⟨hnseen, a :: pre, post, by rw [heq]; rfl, ?_⟩
        intro y hy
        rcases List.mem_cons.mp hy with hya | hyp
        · subst hya; exact fun hc => hne hc.symm
        · exact hpre y hyp

lemma nodup_map_url_removeDuplicatesAux :
    ∀ (l : List Article) (seen : List String),
      ((removeDuplicatesAux l seen).map (fun a => a.url)).Nodup := by
  intro l
  induction l with
  | nil => intro seen; simp [removeDuplicatesAux]
  | cons a rest ih =>
    intro seen
    by_cases hm : a.url ∈ seen
    · rw [removeDuplicatesAux, if_pos hm]; exact ih seen
    · rw [removeDuplicatesAux, if_neg hm]
      simp only [List.map_cons, List.nodup_cons]
      refine ⟨?_, ih (a.url :: seen)⟩
      intro hc
      obtain ⟨x, hx, hux⟩ := List.mem_map.mp hc
      have := (mem_removeDuplicatesAux_first rest (a.url :: seen) x hx).1
      exact this (by rw [hux]; exact List.mem_cons_self _ _)

/-- Urls of the deduplicated list are pairwise distinct. -/
lemma nodup_map_url_removeDuplicates (l : List Article) :
    ((removeDuplicates l).map (fun a => a.url)).Nodup :=
  nodup_map_url_removeDuplicatesAux l []

/-- Every article the dedup keeps is a first occurrence of its url. -/
lemma mem_removeDuplicates_first {l : List Article} {x : Article}
    (hx : x ∈ removeDuplicates l) : IsFirstOccurrence l x :=
  (mem_removeDuplicatesAux_first l [] x hx).2

lemma removeDuplicatesAux_congr_seen :
    ∀ (l : List Article) (s1 s2 : List String),
      (∀ u, u ∈ s1 ↔ u ∈ s2) →
      removeDuplicatesAux l s1 = removeDuplicatesAux l s2 := by
  intro l
  induction l with
  | nil => intro s1 s2 _; rfl
  | cons a rest ih =>
    intro s1 s2 h
    by_cases hm : a.url ∈ s1
    · rw [removeDuplicatesAux, if_pos hm, removeDuplicatesAux,
        if_pos ((h a.url).mp hm)]
      exact ih s1 s2 h
    · rw [removeDuplicatesAux, if_neg hm, removeDuplicatesAux,
        if_neg (fun hc => hm ((h a.url).mpr hc))]
      refine congrArg (a :: ·) (ih _ _ ?_)
      intro u
      simp only [List.mem_cons]
      exact or_congr Iff.rfl (h u)

lemma removeDuplicatesAux_filter :
    ∀ (l : List Article) (seen : List String) (u : String),
      removeDuplicatesAux l (u :: seen) =
      removeDuplicatesAux (l.filter (fun x => x.url != u)) seen := by
  intro l
  induction l with
  | nil => intro seen u; rfl
  | cons a rest ih =>
    intro seen u
    by_cases hau : a.url = u
    · have hm : a.url ∈ u :: seen := by rw [hau]; exact List.mem_cons_self _ _
      rw [removeDuplicatesAux, if_pos hm]
      have hfa : (fun x => x.url != u) a = false := by simp [hau]
      rw [List.filter_cons_of_neg (by simp [hau])]
      exact ih seen u
    · by_cases hs : a.url ∈ seen
      · have hm : a.url ∈ u :: seen := List.mem_cons_of_mem _ hs
        rw [removeDuplicatesAux, if_pos hm]
        rw [List.filter_cons_of_pos (by simp [hau]), removeDuplicatesAux, if_pos hs]
        exact ih seen u
      · have hm : a.url ∉ u :: seen := by
          intro hc
          rcases List.mem_cons.mp hc with h1 | h2
          · exact hau h1
          · exact hs h2
        rw [removeDuplicatesAux, if_neg hm]
        rw [List.filter_cons_of_pos (by simp [hau]), removeDuplicatesAux, if_neg hs]
        refine congrArg (a :: ·) ?_
        have hswap : removeDuplicatesAux rest (a.url :: u :: seen) =
            removeDuplicatesAux rest (u :: a.url :: seen) := by
          refine removeDuplicatesAux_congr_seen rest _ _ ?_
          intro v
          simp only [List.mem_cons]
          tauto
        rw [hswap, ih (a.url :: seen) u]

/-- Dedup of a list with pairwise distinct urls, none already seen, is the
identity. -/
lemma removeDuplicatesAux_eq_self :
    ∀ (l : List Article) (seen : List String),
      ((l.map (fun a => a.url)).Nodup) →
      (∀ a ∈ l, a.url ∉ seen) →
      removeDuplicatesAux l seen = l := by
  intro l
  induction l with
  | nil => intro seen _ _; rfl
  | cons a rest ih =>
    intro seen hnd hsn
    have hm : a.url ∉ seen := hsn a (List.mem_cons_self _ _)
    rw [removeDuplicatesAux, if_neg hm]
    refine congrArg (a :: ·) (ih (a.url :: seen) ?_ ?_)
    · simpa using (List.nodup_cons.mp (by simpa using hnd)).2
    · intro b hb
      intro hc
      rcases List.mem_cons.mp hc with h1 | h2
      · have : a.url ∉ rest.map (fun x => x.url) :=
          (List.nodup_cons.mp (by simpa using hnd)).1
        exact this (h1 ▸ List.mem_map_of_mem _ hb)
      · exact hsn b (List.mem_cons_of_mem _ hb) h2

end NewsService

/-- Length of a filterMap counts the elements mapped to a value. -/
lemma length_filterMap_eq_length_filter_isSome {α β : Type} (f : α → Option β) :
    ∀ l : List α, (l.filterMap f).length = (l.filter (fun a => (f a).isSome)).length := by
  intro l
  induction l with
  | nil => rfl
  | cons a rest ih =>
    rw [List.filterMap_cons]
    cases hfa : f a with
    | none => simpa [List.filter_cons, hfa] using ih
    | some b => simpa [List.filter_cons, hfa] using ih

/-- Updating the first user with a given id, by an id-preserving function,
maps the result of the id lookup. -/
lemma findUserById_updateFirstUserById
    (users : List (String × User)) (userId : String) (f : User → User)
    (hf : ∀ u, (f u).id = u.id) :
    findUserById (DataStore.updateFirstUserById users userId f) userId =
      (findUserById users userId).map f := by
  induction users with
  | nil => rfl
  | cons e rest ih =>
    by_cases hid : e.2.id == userId
    · have hid2 : ((f e.2).id == userId) = true := by
        rw [hf e.2]; exact hid
      simp [DataStore.updateFirstUserById, findUserById, List.find?_cons, hid, hid2]
    · have hid1 : (e.2.id == userId) = false := by
        simpa using hid
      simpa [DataStore.updateFirstUserById, findUserById, List.find?_cons, hid1]
        using ih

/-- Updating the first user with a given id by a function fixing that user
leaves the list unchanged. -/
lemma updateFirstUserById_eq_self
    (users : List (String × User)) (userId : String) (f : User → User)
    {u : User} (hu : findUserById users userId = some u) (hfix : f u = u) :
    DataStore.updateFirstUserById users userId f = users := by
  induction users with
  | nil => simp [findUserById] at hu
  | cons e rest ih =>
    by_cases hid : e.2.id == userId
    · rw [findUserById] at hu
      rw [List.find?_cons, hid] at hu
      have heu : u = e.2 := by simpa using hu.symm
      have hfe : f e.2 = e.2 := heu ▸ hfix
      rw [DataStore.updateFirstUserById, if_pos hid, hfe]
    · have hid1 : (e.2.id == userId) = false := by simpa using hid
      rw [findUserById] at hu
      rw [List.find?_cons, hid1] at hu
      rw [DataStore.updateFirstUserById, if_neg hid, ih hu]

/-- C1: the spec requires searchNews results to be deduplicated by URL, but
the code never calls removeDuplicates on the search path: when NewsAPI
under-supplies and both providers return an article with the same non-empty
url, both copies appear in the returned list. -/
theorem C1_searchNews_not_deduplicated :
    ((NewsService.searchNews true true "x" "en" 20
        (FetchOutcome.success [exRawX1]) (FetchOutcome.success [exRawX2])
        [] 0).1.map (fun a => a.url)) =
      ["https://x.example/a", "https://x.example/a"] ∧
    "https://x.example/a" ≠ "" := by
  constructor
  · rfl
  · decide

/-- C2 counterexample: with an empty cache, the technology request succeeds
with one article and the sports request fails; the claim says the fetch
returns the technology articles, but the code returns the empty list (the
single try/catch wraps the whole category loop). -/
theorem C2_counterexample :
    (NewsService.fetchFromNewsAPI true ["technology", "sports"] "en" 5 []
      exNet 0).1 = [] ∧
    (NewsService.fetchFromNewsAPI true ["technology"] "en" 5 [] exNet 0).1 =
      [Article.fromNewsAPI exRawT "technology"] := by
  constructor
  · rfl
  · rfl

/-- C2 (amended): a failing category request makes the whole provider fetch
return the empty list — articles accumulated for earlier categories in the
same call are discarded, not returned — while the failure is caught (a value
is returned, never an exception) and the same categories fetched alone would
have produced their articles. -/
theorem C2_fetch_failure_discards_accumulated
    (cat1 cat2 lang : String) (ps : Nat) (items : List RawArticle)
    (net : String → FetchOutcome) (now : Int)
    (hne : NewsService.newsapiKey cat2 lang ps ≠ NewsService.newsapiKey cat1 lang ps)
    (hs : net cat1 = FetchOutcome.success items)
    (hf : net cat2 = FetchOutcome.failure) :
    (NewsService.fetchFromNewsAPI true [cat1, cat2] lang ps [] net now).1 = [] ∧
    (NewsService.fetchFromNewsAPI true [cat1] lang ps [] net now).1 =
      (items.filter NewsService.rawOk).map (fun a => Article.fromNewsAPI a cat1) := by
  have hget1 : cacheGet [] (NewsService.newsapiKey cat1 lang ps) now = none := rfl
  have hbeq : ((NewsService.newsapiKey cat1 lang ps) ==
      (NewsService.newsapiKey cat2 lang ps)) = false :=
    beq_eq_false_iff_ne.mpr (Ne.symm hne)
  have hget2 : ∀ v, cacheGet (cacheSet [] (NewsService.newsapiKey cat1 lang ps) v now)
      (NewsService.newsapiKey cat2 lang ps) now = none := by
    intro v
    simp [cacheGet, cacheSet, List.find?_cons, hbeq]
  constructor
  · simp only [NewsService.fetchFromNewsAPI, if_true, NewsService.newsapiLoop,
      hget1, hs, hf, hget2]
  · simp only [NewsService.fetchFromNewsAPI, if_true, NewsService.newsapiLoop,
      hget1, hs]
    simp

/-- C2 witness: the amended statement at the concrete C2 scenario. -/
theorem C2_fetch_failure_discards_accumulated_witness :
    (NewsService.fetchFromNewsAPI true ["technology", "sports"] "en" 5 []
      exNet 0).1 = [] ∧
    (NewsService.fetchFromNewsAPI true ["technology"] "en" 5 [] exNet 0).1 =
      (([exRawT].filter NewsService.rawOk).map (fun a => Article.fromNewsAPI a "technology")) :=
  C2_fetch_failure_discards_accumulated "technology" "sports" "en" 5 [exRawT]
    exNet 0 (by decide) rfl rfl

/-- C5 counterexample: two distinct articles both with the empty url; the
claim says each is kept, but removeDuplicates also sends the empty url
through the seen-set and drops the second. -/
theorem C5_counterexample :
    NewsService.removeDuplicates [emptyUrlA, emptyUrlB] = [emptyUrlA] ∧
    emptyUrlA.url = "" ∧ emptyUrlB.url = "" ∧ emptyUrlA ≠ emptyUrlB := by
  refine ⟨rfl, rfl, rfl, ?_⟩
  decide

/-- C5 (amended): the deduplication keeps the head of the list and removes a
later article exactly when an earlier article has a byte-for-byte equal url,
with empty or absent urls treated like any other url (two articles with
empty urls are deduplicated to the first); consequently the urls of the
result are pairwise distinct. -/
theorem C5_dedup_characterization :
    (∀ (a : Article) (rest : List Article),
      NewsService.removeDuplicates (a :: rest) =
        a :: NewsService.removeDuplicates (rest.filter (fun x => x.url != a.url))) ∧
    (∀ l : List Article,
      ((NewsService.removeDuplicates l).map (fun x => x.url)).Nodup) := by
  constructor
  · intro a rest
    have h1 : NewsService.removeDuplicates (a :: rest) =
        a :: NewsService.removeDuplicatesAux rest [a.url] := by
      simp [NewsService.removeDuplicates, NewsService.removeDuplicatesAux]
    rw [h1, NewsService.removeDuplicatesAux_filter rest [] a.url]
    rfl
  · exact fun l => NewsService.nodup_map_url_removeDuplicates l

/-- C6: a cache set followed immediately by a get of the same key returns
the stored value, and once the TTL has elapsed since the set the get
returns absent (the model never physically removes the entry, matching the
lazy-eviction reading). -/
theorem C6_cache_set_get_ttl (c : Cache) (k : String) (v : List Article)
    (now later : Int) (h : now + cacheTTLms ≤ later) :
    cacheGet (cacheSet c k v now) k now = some v ∧
    cacheGet (cacheSet c k v now) k later = none := by
  constructor
  · have hc : now < now + cacheTTLms := by
      show now < now + (3600000 : Int)
      omega
    simp [cacheGet, cacheSet, List.find?_cons, hc]
  · have hc2 : ¬ (later < now + cacheTTLms) := not_lt.mpr h
    simp [cacheGet, cacheSet, List.find?_cons, hc2]

/-- C6 witness: concrete set/get at time 0 and at the TTL boundary. -/
theorem C6_cache_set_get_ttl_witness :
    cacheGet (cacheSet [] "k" [] 0) "k" 0 = some [] ∧
    cacheGet (cacheSet [] "k" [] 0) "k" 3600000 = none :=
  C6_cache_set_get_ttl [] "k" [] 0 3600000 (by decide)

/-- C7: when the user id resolves to no stored user, the three mutation
operations return false and leave the whole store (users and articles)
unchanged. -/
theorem C7_missing_user_no_mutation (s : DataStore) (userId articleId : String)
    (now : Int) (h : s.getUserById userId = none) :
    s.markArticleAsRead userId articleId now = (false, s) ∧
    s.markArticleAsFavorite userId articleId now = (false, s) ∧
    s.removeFavoriteArticle userId articleId now = (false, s) := by
  refine ⟨?_, ?_, ?_⟩ <;>
    simp [DataStore.markArticleAsRead, DataStore.markArticleAsFavorite,
      DataStore.removeFavoriteArticle, h]

/-- C7 witness: the concrete store with a user id that is not present. -/
theorem C7_missing_user_no_mutation_witness :
    exStore.markArticleAsRead "ghost" "a1" 7 = (false, exStore) ∧
    exStore.markArticleAsFavorite "ghost" "a1" 7 = (false, exStore) ∧
    exStore.removeFavoriteArticle "ghost" "a1" 7 = (false, exStore) :=
  C7_missing_user_no_mutation exStore "ghost" "a1" 7 rfl

/-- C8: removing a favorite that the existing user never added reports
success, leaves the favorite set unchanged, and removing again is the
identity on the whole store (idempotence at the same instant, the updatedAt
stamp included). -/
theorem C8_remove_absent_favorite_idempotent (s : DataStore)
    (userId articleId : String) (now : Int) (u : User)
    (h : s.getUserById userId = some u)
    (hfav : articleId ∉ u.favoriteArticles) :
    (s.removeFavoriteArticle userId articleId now).1 = true ∧
    (∃ u2, (s.removeFavoriteArticle userId articleId now).2.getUserById userId = some u2 ∧
      u2.favoriteArticles = u.favoriteArticles) ∧
    ((s.removeFavoriteArticle userId articleId now).2.removeFavoriteArticle
        userId articleId now) =
      (true, (s.removeFavoriteArticle userId articleId now).2) := by
  have hmap : findUserById (DataStore.updateFirstUserById s.users userId
      (fun v => v.removeFavorite articleId now)) userId =
      some (u.removeFavorite articleId now) := by
    rw [findUserById_updateFirstUserById s.users userId
      (fun v => v.removeFavorite articleId now) (fun v => rfl)]
    rw [show findUserById s.users userId = some u from h]
    rfl
  have hfavEq : (u.removeFavorite articleId now).favoriteArticles =
      u.favoriteArticles := by
    simp [User.removeFavorite, setDelete, List.erase_of_not_mem hfav]
  have hfix : (u.removeFavorite articleId now).removeFavorite articleId now =
      u.removeFavorite articleId now := by
    simp [User.removeFavorite, setDelete, List.erase_of_not_mem hfav]
  have hs1 : s.removeFavoriteArticle userId articleId now =
      (true, { s with users := (DataStore.updateFirstUserById s.users userId
        (fun v => v.removeFavorite articleId now)) }) := by
    simp [DataStore.removeFavoriteArticle, h]
  refine ⟨by rw [hs1], ⟨u.removeFavorite articleId now, ?_, hfavEq⟩, ?_⟩
  · rw [hs1]
    exact hmap
  · rw [hs1]
    have hu2 : ({ s with users := (DataStore.updateFirstUserById s.users userId
        (fun v => v.removeFavorite articleId now)) } : DataStore).getUserById userId =
        some (u.removeFavorite articleId now) := hmap
    simp only [DataStore.removeFavoriteArticle, hu2]
    rw [updateFirstUserById_eq_self _ _ _ hmap hfix]

/-- C8 witness: removing the never-added favorite "a9" from the concrete
store. -/
theorem C8_remove_absent_favorite_idempotent_witness :
    (exStore.removeFavoriteArticle "u1" "a9" 42).1 = true ∧
    (∃ u2, (exStore.removeFavoriteArticle "u1" "a9" 42).2.getUserById "u1" = some u2 ∧
      u2.favoriteArticles = exUser.favoriteArticles) ∧
    ((exStore.removeFavoriteArticle "u1" "a9" 42).2.removeFavoriteArticle "u1" "a9" 42) =
      (true, (exStore.removeFavoriteArticle "u1" "a9" 42).2) :=
  C8_remove_absent_favorite_idempotent exStore "u1" "a9" 42 exUser rfl (by decide)

/-- C9: when the search key misses the cache, searchNews stores whatever
list it produced (possibly empty) under the keyword/language/pageSize key;
any later call with the same keyword, language and pageSize before the TTL
elapses returns exactly that list, leaves the cache untouched and issues
zero provider requests, whatever the provider configuration and responses of
the second call would have been. -/
theorem C9_search_cached_no_requests
    (nk gk nk2 gk2 : Bool) (kw lang : String) (ps : Nat)
    (r1 r2 r1b r2b : FetchOutcome) (c0 : Cache) (now0 now1 : Int)
    (hmiss : cacheGet c0 (NewsService.searchKey kw lang ps) now0 = none)
    (hfresh : now1 < now0 + cacheTTLms) :
    NewsService.searchNews nk2 gk2 kw lang ps r1b r2b
        (NewsService.searchNews nk gk kw lang ps r1 r2 c0 now0).2.1 now1 =
      ((NewsService.searchNews nk gk kw lang ps r1 r2 c0 now0).1,
       (NewsService.searchNews nk gk kw lang ps r1 r2 c0 now0).2.1, 0) := by
  have h2 : ∀ v, cacheGet (cacheSet c0 (NewsService.searchKey kw lang ps) v now0)
      (NewsService.searchKey kw lang ps) now1 = some v := by
    intro v
    simp [cacheGet, cacheSet, List.find?_cons, hfresh]
  simp only [NewsService.searchNews, hmiss]
  simp only [NewsService.searchNews, h2]

/-- C9 witness: both providers unconfigured, so the first call produces and
caches the empty list; the second call one millisecond later returns it with
zero requests. -/
theorem C9_search_cached_no_requests_witness :
    NewsService.searchNews false false "q" "en" 20 FetchOutcome.failure FetchOutcome.failure
        (NewsService.searchNews false false "q" "en" 20 FetchOutcome.failure
          FetchOutcome.failure [] 0).2.1 1 =
      ((NewsService.searchNews false false "q" "en" 20 FetchOutcome.failure
          FetchOutcome.failure [] 0).1,
       (NewsService.searchNews false false "q" "en" 20 FetchOutcome.failure
          FetchOutcome.failure [] 0).2.1, 0) :=
  C9_search_cached_no_requests false false false false "q" "en" 20
    FetchOutcome.failure FetchOutcome.failure FetchOutcome.failure FetchOutcome.failure
    [] 0 1 rfl (by decide)

/-- C10: the per-user article queries return the empty list for a missing
user; for an existing user every returned article is a stored article of one
of the read/favorite ids, and the length equals the number of those ids that
resolve to a stored article — dangling ids are silently dropped, producing
neither an error nor a null entry. -/
theorem C10_user_articles_lookup (s : DataStore) (userId : String) :
    (s.getUserById userId = none →
      s.getUserReadArticles userId = [] ∧ s.getUserFavoriteArticles userId = []) ∧
    (∀ u, s.getUserById userId = some u →
      (∀ x ∈ s.getUserReadArticles userId,
        ∃ aid ∈ u.readArticles, s.getArticle aid = some x) ∧
      (s.getUserReadArticles userId).length =
        (u.readArticles.filter (fun aid => (s.getArticle aid).isSome)).length ∧
      (∀ x ∈ s.getUserFavoriteArticles userId,
        ∃ aid ∈ u.favoriteArticles, s.getArticle aid = some x) ∧
      (s.getUserFavoriteArticles userId).length =
        (u.favoriteArticles.filter (fun aid => (s.getArticle aid).isSome)).length) := by
  constructor
  · intro h
    constructor <;>
      simp [DataStore.getUserReadArticles, DataStore.getUserFavoriteArticles, h]
  · intro u h
    refine ⟨?_, ?_, ?_, ?_⟩
    · intro x hx
      rw [DataStore.getUserReadArticles, h] at hx
      exact List.mem_filterMap.mp hx
    · rw [DataStore.getUserReadArticles, h,
        length_filterMap_eq_length_filter_isSome]
    · intro x hx
      rw [DataStore.getUserFavoriteArticles, h] at hx
      exact List.mem_filterMap.mp hx
    · rw [DataStore.getUserFavoriteArticles, h,
        length_filterMap_eq_length_filter_isSome]

/-- C10 witness: the missing-user case and, for the concrete user whose read
set holds one stored and one dangling id, the resolved-count equation. -/
theorem C10_user_articles_lookup_witness :
    (exStore.getUserReadArticles "ghost" = [] ∧
     exStore.getUserFavoriteArticles "ghost" = []) ∧
    (exStore.getUserReadArticles "u1").length =
      (exUser.readArticles.filter (fun aid => (exStore.getArticle aid).isSome)).length := by
  refine ⟨(C10_user_articles_lookup exStore "ghost").1 rfl, ?_⟩
  exact ((C10_user_articles_lookup exStore "u1").2 exUser rfl).2.1

/-- C3: with neither provider configured, getPersonalizedNews on a
preference list containing "general" returns exactly the five synthetic
articles, and on the list ["technology"] exactly the three synthetic
articles, each tagged with the first requested category; in the embedding
the synthetic generator is a function of the category list and the call
instant alone. -/
theorem C3_mock_fallback_counts (language : String)
    (newsNet gnewsNet : String → FetchOutcome) (cache : Cache) (now : Int) :
    (NewsService.getPersonalizedNews false false ["general"] language 10
      newsNet gnewsNet cache now).1 = NewsService.getMockArticles ["general"] now ∧
    (NewsService.getMockArticles ["general"] now).length = 5 ∧
    (NewsService.getPersonalizedNews false false ["technology"] language 10
      newsNet gnewsNet cache now).1 = NewsService.getMockArticles ["technology"] now ∧
    (NewsService.getMockArticles ["technology"] now).length = 3 ∧
    (∀ a ∈ NewsService.getMockArticles ["technology"] now,
      a.category = "technology") := by
  have hnd5 : ((NewsService.getMockArticles ["general"] now).map (fun a => a.url)).Nodup := by
    have hurl : (NewsService.getMockArticles ["general"] now).map (fun a => a.url) =
        ["https://example.com/tech-news-1", "https://example.com/business-news-1",
         "https://example.com/sports-news-1", "https://example.com/health-news-1",
         "https://example.com/entertainment-news-1"] := rfl
    rw [hurl]
    decide
  have hnd3 : ((NewsService.getMockArticles ["technology"] now).map (fun a => a.url)).Nodup := by
    have hurl : (NewsService.getMockArticles ["technology"] now).map (fun a => a.url) =
        ["https://example.com/tech-news-1", "https://example.com/business-news-1",
         "https://example.com/sports-news-1"] := rfl
    rw [hurl]
    decide
  have hdd5 : NewsService.removeDuplicates (NewsService.getMockArticles ["general"] now) =
      NewsService.getMockArticles ["general"] now :=
    NewsService.removeDuplicatesAux_eq_self _ [] hnd5 (fun a _ => List.not_mem_nil _)
  have hdd3 : NewsService.removeDuplicates (NewsService.getMockArticles ["technology"] now) =
      NewsService.getMockArticles ["technology"] now :=
    NewsService.removeDuplicatesAux_eq_self _ [] hnd3 (fun a _ => List.not_mem_nil _)
  have hmock5 : NewsService.getMockArticles ["general"] now =
      (NewsService.mockBaseArticles now).map (fun a => Article.fromNewsAPI a "general") := rfl
  have hmock3 : NewsService.getMockArticles ["technology"] now =
      ((NewsService.mockBaseArticles now).take 3).map
        (fun a => Article.fromNewsAPI a "technology") := rfl
  have hsBase : List.Pairwise (fun a b : RawArticle => b.publishedAt ≤ a.publishedAt)
      (NewsService.mockBaseArticles now) := by
    simp only [NewsService.mockBaseArticles]
    simp only [List.pairwise_cons, List.mem_cons, List.not_mem_nil, or_false,
      forall_eq_or_imp, forall_eq, List.Pairwise.nil]
    refine ⟨⟨?_, ?_, ?_, ?_⟩, ⟨?_, ?_, ?_⟩, ⟨?_, ?_⟩, ?_, fun a h => h.elim, trivial⟩ <;> omega
  have hsBase3 : List.Pairwise (fun a b : RawArticle => b.publishedAt ≤ a.publishedAt)
      ((NewsService.mockBaseArticles now).take 3) :=
    List.Pairwise.sublist (List.take_sublist _ _) hsBase
  have hs5 : List.Sorted NewsService.publishedGE (NewsService.getMockArticles ["general"] now) :=
    hmock5 ▸ (List.pairwise_map.mpr (hsBase.imp (fun h => h)))
  have hs3 : List.Sorted NewsService.publishedGE (NewsService.getMockArticles ["technology"] now) :=
    hmock3 ▸ (List.pairwise_map.mpr (hsBase3.imp (fun h => h)))
  refine ⟨?_, rfl, ?_, rfl, ?_⟩
  · show (List.insertionSort NewsService.publishedGE (NewsService.removeDuplicates
      (NewsService.getMockArticles ["general"] now))).take 10 =
      NewsService.getMockArticles ["general"] now
    rw [hdd5, List.Sorted.insertionSort_eq hs5]
    exact List.take_of_length_le (by norm_num [show (NewsService.getMockArticles ["general"] now).length = 5 from rfl])
  · show (List.insertionSort NewsService.publishedGE (NewsService.removeDuplicates
      (NewsService.getMockArticles ["technology"] now))).take 10 =
      NewsService.getMockArticles ["technology"] now
    rw [hdd3, List.Sorted.insertionSort_eq hs3]
    exact List.take_of_length_le (by norm_num [show (NewsService.getMockArticles ["technology"] now).length = 3 from rfl])
  · intro a ha
    rw [hmock3] at ha
    obtain ⟨b, hb, rfl⟩ := List.mem_map.mp ha
    rfl

/-- C4: every list getPersonalizedNews returns is sorted non-increasing in
the published timestamp, has pairwise distinct urls, has length at most the
limit, and each of its entries is the first occurrence of its url in the
gathered pool (NewsAPI results preceding GNews results in the
concatenation). -/
theorem C4_personalized_sorted_dedup_limited
    (nk gk : Bool) (preferences : List String) (language : String)
    (limit : Nat) (newsNet gnewsNet : String → FetchOutcome)
    (cache : Cache) (now : Int) :
    List.Sorted NewsService.publishedGE
      (NewsService.getPersonalizedNews nk gk preferences language limit
        newsNet gnewsNet cache now).1 ∧
    (NewsService.getPersonalizedNews nk gk preferences language limit
        newsNet gnewsNet cache now).1.length ≤ limit ∧
    ((NewsService.getPersonalizedNews nk gk preferences language limit
        newsNet gnewsNet cache now).1.map (fun a => a.url)).Nodup ∧
    (∀ x ∈ (NewsService.getPersonalizedNews nk gk preferences language limit
        newsNet gnewsNet cache now).1,
      IsFirstOccurrence (NewsService.personalizedPool nk gk preferences language
        limit newsNet gnewsNet cache now).1 x) := by
  have hunfold : (NewsService.getPersonalizedNews nk gk preferences language limit
      newsNet gnewsNet cache now).1 =
      (List.insertionSort NewsService.publishedGE (NewsService.removeDuplicates
        (NewsService.personalizedPool nk gk preferences language limit
          newsNet gnewsNet cache now).1)).take limit := rfl
  rw [hunfold]
  refine ⟨?_, ?_, ?_, ?_⟩
  · exact List.Pairwise.sublist (List.take_sublist _ _)
      (List.sorted_insertionSort NewsService.publishedGE _)
  · rw [List.length_take]
    exact min_le_left _ _
  · have hd : ((NewsService.removeDuplicates
        (NewsService.personalizedPool nk gk preferences language limit
          newsNet gnewsNet cache now).1).map (fun a => a.url)).Nodup :=
      NewsService.nodup_map_url_removeDuplicates _
    have hpm : ((List.insertionSort NewsService.publishedGE (NewsService.removeDuplicates
        (NewsService.personalizedPool nk gk preferences language limit
          newsNet gnewsNet cache now).1)).map (fun a => a.url)).Nodup :=
      ((List.perm_insertionSort NewsService.publishedGE _).map _).nodup_iff.mpr hd
    exact List.Nodup.sublist ((List.take_sublist _ _).map _) hpm
  · intro x hx
    have hx1 : x ∈ List.insertionSort NewsService.publishedGE
        (NewsService.removeDuplicates
          (NewsService.personalizedPool nk gk preferences language limit
            newsNet gnewsNet cache now).1) :=
      (List.take_sublist _ _).subset hx
    have hx2 : x ∈ NewsService.removeDuplicates
        (NewsService.personalizedPool nk gk preferences language limit
          newsNet gnewsNet cache now).1 :=
      (List.perm_insertionSort NewsService.publishedGE _).subset hx1
    exact NewsService.mem_removeDuplicates_first hx2

/-- C3 witness: the general-preferences equation and the category tag of the
first synthetic article at instant 0 with failing oracles. -/
theorem C3_mock_fallback_counts_witness :
    (NewsService.getPersonalizedNews false false ["general"] "en" 10
      (fun _ => FetchOutcome.failure) (fun _ => FetchOutcome.failure) [] 0).1 =
      NewsService.getMockArticles ["general"] 0 ∧
    ((NewsService.getMockArticles ["technology"] 0).get
      ⟨0, by decide⟩).category = "technology" := by
  have h := C3_mock_fallback_counts "en" (fun _ => FetchOutcome.failure)
    (fun _ => FetchOutcome.failure) [] 0
  exact ⟨h.1, h.2.2.2.2 _ (List.get_mem _ _ _)⟩

/-- C4 witness: the sortedness, length bound, url distinctness and the
first-occurrence property of the head entry, at instant 0 with no providers
configured. -/
theorem C4_personalized_sorted_dedup_limited_witness :
    List.Sorted NewsService.publishedGE
      (NewsService.getPersonalizedNews false false ["general"] "en" 10
        (fun _ => FetchOutcome.failure) (fun _ => FetchOutcome.failure) [] 0).1 ∧
    (NewsService.getPersonalizedNews false false ["general"] "en" 10
        (fun _ => FetchOutcome.failure) (fun _ => FetchOutcome.failure) [] 0).1.length ≤ 10 ∧
    ((NewsService.getPersonalizedNews false false ["general"] "en" 10
        (fun _ => FetchOutcome.failure) (fun _ => FetchOutcome.failure) [] 0).1.map
          (fun a => a.url)).Nodup ∧
    IsFirstOccurrence
      (NewsService.personalizedPool false false ["general"] "en" 10
        (fun _ => FetchOutcome.failure) (fun _ => FetchOutcome.failure) [] 0).1
      ((NewsService.getPersonalizedNews false false ["general"] "en" 10
        (fun _ => FetchOutcome.failure) (fun _ => FetchOutcome.failure) [] 0).1.get
        ⟨0, by decide⟩) := by
  have h := C4_personalized_sorted_dedup_limited false false ["general"] "en" 10
    (fun _ => FetchOutcome.failure) (fun _ => FetchOutcome.failure) [] 0
  exact ⟨h.1, h.2.1, h.2.2.1, h.2.2.2 _ (List.get_mem _ _ _)⟩
